import Mathlib

/-!
Shallow embedding of the Prolific integration layer of this repository:
the HTTP client (`prolific_client.py`), the session module (`prolific.py`)
and the sync workflow (`prolific_ui/project.py`).  Network I/O is modelled
by passing the single HTTP response each client call would receive as an
explicit argument (an oracle); a raised exception is modelled by
`Except.error`.  Python `Decimal` values are embedded as `ℚ` (the callers
in `prolific_ui/project.py` construct rewards with `as_decimal`, so money
arithmetic in the running code is exact decimal arithmetic).
-/

namespace Prolific

/-- JSON-ish Python values appearing in the request/response payloads of
this client (strings, ints, booleans, `None`, lists of strings, and the
empty list). -/
inductive PyVal where
  | str (s : String)
  | int (n : Int)
  | bool (b : Bool)
  | none
  | strList (xs : List String)
  | emptyList
  deriving DecidableEq, Repr

/-- A Python dict with string keys, as an association list.  Lookup finds
the FIRST matching entry; accordingly every overriding update/merge
prepends its entries (so `{**a, **b}` is `merge a b = b.entries ++ a.entries`,
matching Python where `b` wins). -/
abbrev Obj : Type := List (String × PyVal)

/-- Dict lookup, first match wins. -/
def Obj.get (o : Obj) (k : String) : Option PyVal :=
  match o with
  | [] => Option.none
  | (k2, v) :: rest => if k2 = k then some v else Obj.get rest k

/-- Python dict merge `\x7b**a, **b\x7d`: entries of `b` override entries of `a`. -/
def Obj.merge (a b : Obj) : Obj := b ++ a

/-- Python dict item assignment `d[k] = v`. -/
def Obj.set (o : Obj) (k : String) (v : PyVal) : Obj := (k, v) :: o

/-- Python membership test `k in d`. -/
def Obj.mem (o : Obj) (k : String) : Bool := (o.get k).isSome

/-- The outcome of one HTTP request made through `requests`: either the
transport raised (connection error, timeout, DNS failure, ...), or a
response with a status code and a JSON body arrived. -/
inductive HttpResponse where
  | exn
  | resp (status : Nat) (body : Obj)

/-- A Python exception escaping the embedded code. -/
inductive PyErr where
  | typeError
  | keyError
  | netError
  deriving DecidableEq, Repr

/-! ### Exact integer conversions on ℚ (Python `int` and `round` on `Decimal`) -/

/-- Python `int(x)` on an exact (Decimal/rational) value: truncation toward
zero (floor for nonnegative values, ceiling for negative ones). -/
def pyInt (q : ℚ) : ℤ := if 0 ≤ q then ⌊q⌋ else ⌈q⌉

/-- Python `round(x)` on an exact value: round half to even (bankers
rounding). -/
def pyRound (q : ℚ) : ℤ :=
  let f := ⌊q⌋
  let r : ℚ := q - (f : ℚ)
  if r < 1/2 then f
  else if 1/2 < r then f + 1
  else if f % 2 = 0 then f else f + 1

/-! ### `prolific_client.py` -/

def api_url : String := "https://test.prolific.co/api/v1"

def client_url : String := "https://test-client.prolific.co"

/-- `ProlificClient.with_token`: `\x7b**\x7b"token": self.token\x7d, **data\x7d`
(entries of the payload itself override the injected token). -/
def with_token (token : String) (data : Obj) : Obj :=
  Obj.merge [("token", PyVal.str token)] data

/-- `ProlificClient.retrieve_prolific_user`: GET `/users/me/`.  The
`requests.get` call is NOT wrapped in try/except, so a transport error
propagates as an exception; a non-200 status yields `None`; a 200 status
yields the JSON body with the client token merged in via `with_token`. -/
def retrieve_prolific_user (token : String) (net : HttpResponse) :
    Except PyErr (Option Obj) :=
  match net with
  | HttpResponse.exn => Except.error PyErr.netError
  | HttpResponse.resp status body =>
      if status ≠ 200 then Except.ok Option.none
      else Except.ok (some (with_token token body))

/-- The JSON request body sent by `ProlificClient.calculate_total`. -/
def calculate_total_request (participants : ℤ) (reward : ℚ) : Obj :=
  [("reward", PyVal.int (pyInt (reward * 100))),
   ("total_available_places", PyVal.int participants),
   ("study_type", PyVal.str "SINGLE")]

/-- `ProlificClient.calculate_total`: POST `/study-cost-calculator/`.
Transport errors propagate; non-200 yields `None`; on 200 the integer
`total_cost` field is read (a missing or non-integer field would raise)
and divided by 100 as an exact `Decimal`. -/
def calculate_total (participants : ℤ) (reward : ℚ) (net : HttpResponse) :
    Except PyErr (Option ℚ) :=
  match net with
  | HttpResponse.exn => Except.error PyErr.netError
  | HttpResponse.resp status body =>
      if status ≠ 200 then Except.ok Option.none
      else
        match body.get "total_cost" with
        | some (PyVal.int n) => Except.ok (some ((n : ℚ) / 100))
        | _ => Except.error PyErr.keyError

/-- The JSON request body built by `ProlificClient.create_study`
(`projDict` in the source, field for field). -/
def create_study_request (title internal_name description external_study_url
    code : String) (participants duration : ℤ) (reward : ℚ) : Obj :=
  [("name", PyVal.str title),
   ("internal_name", PyVal.str internal_name),
   ("description", PyVal.str description),
   ("external_study_url", PyVal.str external_study_url),
   ("completion_code", PyVal.str code),
   ("callback_url", PyVal.str
     ("https://test-client.prolific.co/submissions/complete?cc=" ++ code)),
   ("total_available_places", PyVal.int participants),
   ("estimated_completion_time", PyVal.int duration),
   ("maximum_allowed_time", PyVal.int 13),
   ("reward", PyVal.int (pyInt (reward * 100))),
   ("prolific_id_option", PyVal.str "url_parameters"),
   ("completion_option", PyVal.str "url"),
   ("device_compatibility", PyVal.strList ["mobile", "desktop", "tablet"]),
   ("peripheral_requirements", PyVal.emptyList),
   ("custom_screening_checked", PyVal.bool false),
   ("publish_at", PyVal.none),
   ("study_type", PyVal.str "SINGLE"),
   ("eligibility_requirements", PyVal.emptyList)]

/-- `ProlificClient.create_study`: POST `/studies/`.  Transport errors
propagate; a status other than 201 yields `None`; on 201 the body is
returned merged with a derived `url` field
built as `client_url` plus `/studies/` plus the id field of the body plus
a trailing slash (reading the id field raises `KeyError` when absent; the
merge lets the derived `url` override any `url` in the body, as
`\x7b**study, **extra\x7d` does). -/
def create_study (title internal_name description external_study_url
    code : String) (participants duration : ℤ) (reward : ℚ)
    (net : HttpResponse) : Except PyErr (Option Obj) :=
  match net with
  | HttpResponse.exn => Except.error PyErr.netError
  | HttpResponse.resp status body =>
      if status ≠ 201 then Except.ok Option.none
      else
        match body.get "id" with
        | some (PyVal.int i) =>
            Except.ok (some (Obj.merge body
              [("url", PyVal.str (client_url ++ "/studies/" ++ toString i ++ "/"))]))
        | _ => Except.error PyErr.keyError

/-- `ProlificClient.publish_study`: POST `/studies/\x7bid\x7d/transition/`.
Transport errors propagate; non-200 yields `None`; on 200 the body is
returned unchanged. -/
def publish_study (net : HttpResponse) : Except PyErr (Option Obj) :=
  match net with
  | HttpResponse.exn => Except.error PyErr.netError
  | HttpResponse.resp status body =>
      if status ≠ 200 then Except.ok Option.none
      else Except.ok (some body)

/-! ### `prolific.py` — the session module -/

/-- The fixed permission table of the session module
(guest=10, reporter=20, developer=30, maintainer=30, owner=50). -/
def permissions : List (String × ℤ) :=
  [("guest", 10), ("reporter", 20), ("developer", 30),
   ("maintainer", 30), ("owner", 50)]

/-- The `developer` threshold read from the permission table
(`prolific.permissions['developer']` in the source, spelled with the
lookup so the table itself stays the authority). -/
def developerLevel : ℤ := (permissions.lookup "developer").getD 0

/-- Truthiness of the stored token (`if self.getToken():` in the `client`
property): Python `None` and the empty string are falsy. -/
def tokenTruthy : Option String → Bool
  | Option.none => false
  | some s => s ≠ ""

/-- The mutable fields of a `ProlificSession` that the embedded operations
read or write. -/
structure SessionState where
  token : Option String
  username : Option PyVal
  userID : Option PyVal
  userFullName : Option PyVal
  authenticated : Bool
  deriving DecidableEq, Repr

/-- A `User` object: its backing `data` dict.  `User.__init__` stores the
token of the current global session into the dict under `token`; in every
flow of the source that global token coincides with the token of the
session whose `user` property is being read, so it is passed in here. -/
structure PyUser where
  data : Obj
  deriving DecidableEq, Repr

/-- `User.__init__(localData, ...)` with current-session token `tok`. -/
def mkUser (tok : Option String) (localData : Obj) : PyUser :=
  ⟨localData.set "token" (match tok with
    | Option.none => PyVal.none
    | some t => PyVal.str t)⟩

/-- The `User.username` property: `data['username']` when present, else
Python `None`. -/
def PyUser.username (u : PyUser) : Option PyVal := u.data.get "username"

/-- The `ProlificSession.user` property: with a client, fetch the remote
identity (an exception from the transport propagates); a successful fetch
wraps the payload in a `User`; a `None` fetch result, or the absence of a
client, yields the anonymous `User` with empty local data. -/
def sessionUser (token : Option String) (net : HttpResponse) :
    Except PyErr PyUser :=
  if tokenTruthy token then
    match retrieve_prolific_user (token.getD "") net with
    | Except.error e => Except.error e
    | Except.ok (some u) => Except.ok (mkUser token u)
    | Except.ok Option.none => Except.ok (mkUser token [])
  else Except.ok (mkUser token [])

/-- `ProlificSession.startSession`: without a client, only
`authenticated` is cleared; with a client the `user` property is read
(its exceptions propagate — there is no try/except here) and the session
fields are copied from it, after which `authenticated` is set to `True`
UNCONDITIONALLY — also when the identity fetch came back non-200 and the
user is therefore anonymous. -/
def startSession (s : SessionState) (net : HttpResponse) :
    Except PyErr SessionState :=
  if ¬ tokenTruthy s.token then
    Except.ok { s with authenticated := false }
  else
    match sessionUser s.token net with
    | Except.error e => Except.error e
    | Except.ok u =>
        Except.ok { s with
          username := u.username,
          userID := u.data.get "id",
          userFullName := u.data.get "name",
          authenticated := true }

/-- `ProlificSession.setToken`: store the token, then `startSession`. -/
def setToken (s : SessionState) (token : Option String) (net : HttpResponse) :
    Except PyErr SessionState :=
  startSession { s with token := token } net

/-- `ProlificSession.__init__(token)`: all fields reset, then
`setToken(token)`.  Exceptions of `startSession` escape the constructor. -/
def mkSession (token : Option String) (net : HttpResponse) :
    Except PyErr SessionState :=
  setToken
    { token := Option.none, username := Option.none, userID := Option.none,
      userFullName := Option.none, authenticated := false }
    token net

/-- Python truthiness of an embedded JSON value. -/
def PyVal.truthy : PyVal → Bool
  | PyVal.str s => s ≠ ""
  | PyVal.int n => n ≠ 0
  | PyVal.bool b => b
  | PyVal.none => false
  | PyVal.strList xs => ¬ xs.isEmpty
  | PyVal.emptyList => false

/-- Parameter names of `ProlificProject.__init__` after `self`:
`(pavloviaId, data)` — there is NO `repo` parameter. -/
def prolificProjectParams : List String := ["pavloviaId", "data"]

/-- Python call-argument binding: positional arguments bind the leading
parameters in order; every keyword argument must name a parameter that is
not already bound positionally, else the call raises `TypeError`
(unexpected keyword argument); a parameter left unbound (none here has a
default) also raises `TypeError`. -/
def bindCallArgs (params : List String) (positional : List PyVal)
    (keywords : List (String × PyVal)) :
    Except PyErr (List (String × PyVal)) :=
  if params.length < positional.length then Except.error PyErr.typeError
  else
    let posBound := params.take positional.length
    let remaining := params.drop positional.length
    if keywords.any (fun kv => ¬ params.contains kv.1) then
      Except.error PyErr.typeError
    else if keywords.any (fun kv => posBound.contains kv.1) then
      Except.error PyErr.typeError
    else if remaining.any (fun p => ¬ keywords.any (fun kv => kv.1 = p)) then
      Except.error PyErr.typeError
    else Except.ok (posBound.zip positional ++ keywords)

/-- A constructed `ProlificProject` (the fields written by a successful
`__init__`). -/
structure ProjectObj where
  pavloviaId : PyVal
  idNumber : PyVal
  title : PyVal
  deriving DecidableEq, Repr

/-- The body of `ProlificProject.__init__` once arguments are bound: its
first read of the `data` argument is the subscript `data['id']`, and no
value that ever reaches it through `Session.getProject` is a dict (the
`repo` keyword holds `None` or a git repository object), so the subscript
raises `TypeError`.  (The binding above already fails first; this models
the counterfactual continuation honestly.) -/
def prolificProjectInitOnNonDict : Except PyErr ProjectObj :=
  Except.error PyErr.typeError

/-- `ProlificSession.getProject(id, repo=None)`: a truthy `id` calls
`ProlificProject(id, repo=repo)`, a falsy `id` with truthy `repo` calls
`ProlificProject(repo=repo)`, otherwise `None` is returned.  Both calls
go through Python argument binding against the real parameter list of
`ProlificProject.__init__`. -/
def getProject (id repo : PyVal) : Except PyErr (Option ProjectObj) :=
  if id.truthy then
    match bindCallArgs prolificProjectParams [id] [("repo", repo)] with
    | Except.error e => Except.error e
    | Except.ok _ => prolificProjectInitOnNonDict.map some
  else if repo.truthy then
    match bindCallArgs prolificProjectParams [] [("repo", repo)] with
    | Except.error e => Except.error e
    | Except.ok _ => prolificProjectInitOnNonDict.map some
  else Except.ok Option.none

/-- `refreshSession`: when a session exists and holds a truthy token,
replace the global session by a brand-new `ProlificSession` around that
token; otherwise replace it by an empty `ProlificSession`.  Returns the
new session. -/
def refreshSession (g : Option SessionState) (net : HttpResponse) :
    Except PyErr SessionState :=
  match g with
  | some s =>
      if tokenTruthy s.token then mkSession s.token net
      else mkSession Option.none net
  | Option.none => mkSession Option.none net

/-- `getCurrentSession`: an existing global session is returned as is; on
first access an empty `ProlificSession` is created, `refreshSession` is
run, and the resulting global session is returned. -/
def getCurrentSession (g : Option SessionState) (net : HttpResponse) :
    Except PyErr SessionState :=
  match g with
  | some s => Except.ok s
  | Option.none =>
      match mkSession Option.none net with
      | Except.error e => Except.error e
      | Except.ok fresh => refreshSession (some fresh) net

/-- Truthiness of a `ProlificSession` object in `if not currentSession:`
— the class defines neither a boolean conversion nor a length, so every
instance is truthy. -/
def sessionObjTruthy (s : SessionState) : Bool := true

/-- How `login` begins: fetch the current session, raise the
connection-failure signal when it is falsy, otherwise proceed with it. -/
inductive LoginStart where
  | connectionFailure
  | proceeds (s : SessionState)
  deriving Repr

/-- The top of `login(tokenOrUsername)`: `getCurrentSession()` followed by
the `if not currentSession: raise ConnectionError(...)` guard. -/
def login_begin (g : Option SessionState) (net : HttpResponse) :
    Except PyErr LoginStart :=
  match getCurrentSession g net with
  | Except.error e => Except.error e
  | Except.ok s =>
      if sessionObjTruthy s then Except.ok (LoginStart.proceeds s)
      else Except.ok LoginStart.connectionFailure

/-! ### `prolific_ui/project.py` — the sync workflow and fork gating -/

/-- Truthiness of the fork-gating permission value
(`not perms or perms < prolific.permissions['developer']` with `perms`
either `None` or an integer). -/
def forkNeeded (perms : Option ℤ) : Bool :=
  match perms with
  | Option.none => true
  | some v => decide (v = 0 ∨ v < developerLevel)

/-- The routes `DetailsPanel.onSyncButton` can take up to the fork
decision. -/
inductive SyncButtonOutcome where
  | noGitWarning
  | raisesNoProject
  | promptsLogin
  | proceeds (forked : Bool)
  deriving DecidableEq, Repr

/-- `DetailsPanel.onSyncButton`: warn and stop without git; raise when no
project is set; prompt for login when the current username is falsy; else
fork exactly when `forkNeeded` holds on the permission value of the
project, and continue to the folder choice and `project.sync`. -/
def onSyncButton (haveGit : Bool) (project : Option (Option ℤ))
    (usernameIsTruthy : Bool) : SyncButtonOutcome :=
  if ¬ haveGit then SyncButtonOutcome.noGitWarning
  else
    match project with
    | Option.none => SyncButtonOutcome.raisesNoProject
    | some perms =>
        if ¬ usernameIsTruthy then SyncButtonOutcome.promptsLogin
        else SyncButtonOutcome.proceeds (forkNeeded perms)

/-- Observable side effects of `syncProject`. -/
inductive SyncEvent where
  | msgBox
  | identityFetch
  | loginPrompt
  deriving DecidableEq, Repr

/-- The environment a `syncProject` call runs in: the directory of the
working file, the path normalization `os.path.normcase ∘
os.path.expanduser` of the host, the `project` argument, whether the
parent frame is a Builder frame and which project it carries, the outcome
of reading `proSession.user.username` (which performs the identity fetch
and may raise), and the result of the external `logInProlific`
collaborator. -/
structure SyncEnv where
  normPath : String → String
  workingDir : String
  project : Option Unit
  parentIsBuilder : Bool
  frameProject : Option Unit
  usernameRead : Except PyErr (Option String)
  loginResult : Option String

/-- Truthiness of a username value (`if not username:`): Python `None`
and the empty string are falsy. -/
def usernameTruthy : Option String → Bool
  | Option.none => false
  | some s => s ≠ ""

/-- `syncProject(parent, project=None, ...)`, faithful to the control
flow of the source: (1) reject Desktop / My Documents working folders
with a message box and `-1`; (2) otherwise, when no project was supplied,
a Builder parent may provide one; (3) with a project in hand the function
body simply ENDS, so Python returns `None`; (4) with no project, the
username of the current session is read inside `try:` — a falsy username
yields `-1`, an exception routes to the `logInProlific` collaborator whose
falsy result also yields `-1` — and a remaining absence of a project
yields `0`. -/
def syncProject (env : SyncEnv) : Option ℤ × List SyncEvent :=
  let currentPath := env.normPath env.workingDir
  let invalidFolders :=
    [env.normPath "~/Desktop", env.normPath "~/My Documents"]
  if invalidFolders.contains currentPath then
    (some (-1), [SyncEvent.msgBox])
  else
    let project :=
      match env.project with
      | some p => some p
      | Option.none =>
          if env.parentIsBuilder then env.frameProject else Option.none
    match project with
    | some _ => (Option.none, [])
    | Option.none =>
        match env.usernameRead with
        | Except.ok uname =>
            if ¬ usernameTruthy uname then
              (some (-1), [SyncEvent.identityFetch])
            else (some 0, [SyncEvent.identityFetch])
        | Except.error _ =>
            if ¬ usernameTruthy env.loginResult then
              (some (-1), [SyncEvent.identityFetch, SyncEvent.loginPrompt])
            else (some 0, [SyncEvent.identityFetch, SyncEvent.loginPrompt])

/-- Equality of `Except` results is decidable componentwise (used to
evaluate the embedded operations on concrete inputs). -/
instance {ε α : Type} [DecidableEq ε] [DecidableEq α] :
    DecidableEq (Except ε α) := fun x y => by
  cases x <;> cases y <;>
    first
      | exact isFalse (fun h => Except.noConfusion h)
      | (rename_i a b; exact decidable_of_iff (a = b) (by simp))

end Prolific

namespace Prolific

/-- Lookup distributes over dict concatenation: the left entries win. -/
theorem Obj.get_append (a b : Obj) (k : String) :
    Obj.get (a ++ b) k =
      match Obj.get a k with
      | some v => some v
      | Option.none => Obj.get b k := by
  induction a with
  | nil => simp [Obj.get]
  | cons hd tl ih =>
      obtain ⟨k2, v⟩ := hd
      by_cases h : k2 = k <;> simp [Obj.get, h, ih]

end Prolific

namespace Prolific

/-! ## C1 — session authentication invariant -/

/-- C1 counterexample: with token `"t"` and an identity fetch answered by
a 500 response (a failed fetch), the constructed session has
`authenticated = true`, refuting the claim that a failed identity fetch
leaves the session with `authenticated == false`. -/
theorem session_auth_true_after_failed_fetch :
    (mkSession (some "t") (HttpResponse.resp 500 [])).toOption.map
        SessionState.authenticated = some true
  ∧ (some true : Option Bool) ≠ some false := by
  constructor
  · decide
  · decide

/-- C1 amended: `authenticated == true` iff a truthy token is set,
regardless of the outcome of the identity fetch; when the fetch returns a
non-200 response the session fields hold the anonymous user (username is
Python `None`, not the empty string) while `authenticated` is still set
from the token; and a network error during the fetch escapes
`startSession` and the constructor as an exception. -/
theorem session_authentication_behaviour (token : Option String)
    (status : Nat) (body : Obj) :
    (mkSession token (HttpResponse.resp status body)).toOption.map
        SessionState.authenticated = some (tokenTruthy token)
  ∧ (status ≠ 200 →
      (mkSession token (HttpResponse.resp status body)).toOption.map
        SessionState.username = some Option.none)
  ∧ (tokenTruthy token = true →
      mkSession token HttpResponse.exn = Except.error PyErr.netError) := by
  by_cases h : tokenTruthy token = true
  · by_cases h2 : status = 200 <;>
      simp [mkSession, setToken, startSession, h, h2, sessionUser,
        retrieve_prolific_user, mkUser, PyUser.username, Obj.set, Obj.get,
        Except.toOption]
  · simp at h
    simp [mkSession, setToken, startSession, h, sessionUser, Except.toOption]

/-- C1 witness: the amended statement evaluated at token `"t"` and a 500
identity-fetch response. -/
theorem session_authentication_behaviour_witness :
    (mkSession (some "t") (HttpResponse.resp 500 [])).toOption.map
        SessionState.authenticated = some (tokenTruthy (some "t"))
  ∧ (mkSession (some "t") (HttpResponse.resp 500 [])).toOption.map
        SessionState.username = some Option.none
  ∧ mkSession (some "t") HttpResponse.exn = Except.error PyErr.netError :=
  ⟨(session_authentication_behaviour (some "t") 500 []).1,
   (session_authentication_behaviour (some "t") 500 []).2.1 (by decide),
   (session_authentication_behaviour (some "t") 500 []).2.2 (by decide)⟩

/-! ## C2 — tri-state return contract of `syncProject` -/

/-- C2: when a project IS supplied (and the working folder is valid), the
body of `syncProject` runs off its end, so the call returns Python `None`
— a value outside the documented tri-state `\x7b1, 0, -1\x7d`.  The claimed
success path (`1` after a SYNCING step) does not exist in the function. -/
theorem syncProject_missing_success_path :
    syncProject ⟨id, "/home/u/expt", some (), false, Option.none,
      Except.ok (some "alice"), Option.none⟩ = (Option.none, [])
  ∧ (Option.none : Option ℤ) ∉ [some 1, some 0, some (-1)] := by
  constructor
  · rfl
  · decide

/-! ## C3 — `retrieve_prolific_user` error contract -/

/-- C3 counterexample: a network error while fetching `/users/me/` is NOT
mapped to `None`: the exception propagates out of
`retrieve_prolific_user`, refuting the claim that network errors are
caught. -/
theorem retrieve_user_network_error_propagates :
    retrieve_prolific_user "tok" HttpResponse.exn
      = Except.error PyErr.netError
  ∧ retrieve_prolific_user "tok" HttpResponse.exn
      ≠ Except.ok Option.none := by
  constructor
  · rfl
  · decide

/-- C3 amended: every non-200 response yields `None`; a 200 response
yields the payload merged with the client token (so a payload without a
`token` field round-trips the original token); a network error is not
caught and propagates as an exception. -/
theorem retrieve_user_contract (token : String) (status : Nat) (body : Obj)
    (hs : status ≠ 200) (htok : body.get "token" = Option.none) :
    retrieve_prolific_user token (HttpResponse.resp status body)
      = Except.ok Option.none
  ∧ retrieve_prolific_user token (HttpResponse.resp 200 body)
      = Except.ok (some (with_token token body))
  ∧ (with_token token body).get "token" = some (PyVal.str token)
  ∧ retrieve_prolific_user token HttpResponse.exn
      = Except.error PyErr.netError := by
  refine ⟨by simp [retrieve_prolific_user, hs], by simp [retrieve_prolific_user], ?_, rfl⟩
  simp [with_token, Obj.merge, Obj.get_append, htok, Obj.get]

/-- C3 witness: the amended contract evaluated at token `"tok"`, a 404
response and a payload without a `token` field. -/
theorem retrieve_user_contract_witness :
    retrieve_prolific_user "tok" (HttpResponse.resp 404 [("id", PyVal.int 7)])
      = Except.ok Option.none
  ∧ retrieve_prolific_user "tok" (HttpResponse.resp 200 [("id", PyVal.int 7)])
      = Except.ok (some (with_token "tok" [("id", PyVal.int 7)]))
  ∧ (with_token "tok" [("id", PyVal.int 7)]).get "token"
      = some (PyVal.str "tok")
  ∧ retrieve_prolific_user "tok" HttpResponse.exn
      = Except.error PyErr.netError :=
  retrieve_user_contract "tok" 404 [("id", PyVal.int 7)] (by decide) (by rfl)

end Prolific

namespace Prolific

/-! ## C4 — money conversion -/

/-- C4 counterexample: for reward `0.119` the requests carry minor units
`11` (truncation by `int(...)`), while `round(0.119 * 100)` is `12`,
refuting the claim that the carried value is `round(rewardAmount*100)`. -/
theorem reward_truncation_counterexample :
    (calculate_total_request 500 (119/1000)).get "reward"
      = some (PyVal.int 11)
  ∧ (create_study_request "t" "i" "d" "u" "c" 500 5 (119/1000)).get "reward"
      = some (PyVal.int 11)
  ∧ pyRound ((119/1000 : ℚ) * 100) = 12
  ∧ PyVal.int 11 ≠ PyVal.int 12 := by
  refine ⟨?_, ?_, ?_, by decide⟩
  · simp [calculate_total_request, Obj.get]
    norm_num [pyInt]
  · simp [create_study_request, Obj.get]
    norm_num [pyInt]
  · norm_num [pyRound]

/-- C4 amended: both requests carry the reward in integer minor units
computed as `int(rewardAmount * 100)` — truncation toward zero of the
exact product (the callers build `rewardAmount` with `as_decimal`, so the
arithmetic is exact decimal, but the rounding mode is truncation, not
`round`); on a 200 response the cost calculator divides the returned
integer minor-unit total by 100 exactly. -/
theorem money_minor_units (title iname dsc ext code : String)
    (participants duration : ℤ) (reward : ℚ) (n : ℤ) :
    (calculate_total_request participants reward).get "reward"
      = some (PyVal.int (pyInt (reward * 100)))
  ∧ (create_study_request title iname dsc ext code participants duration
      reward).get "reward" = some (PyVal.int (pyInt (reward * 100)))
  ∧ calculate_total participants reward
      (HttpResponse.resp 200 [("total_cost", PyVal.int n)])
      = Except.ok (some ((n : ℚ) / 100)) := by
  refine ⟨?_, ?_, ?_⟩
  · simp [calculate_total_request, Obj.get]
  · simp [create_study_request, Obj.get]
  · simp [calculate_total, Obj.get]

/-! ## C5 — `getProject` on a local identifier -/

/-- C5: for the valid truthy local identifier `"somegroup/somestudy"`,
`Session.getProject` raises `TypeError` instead of returning a project
record: the internal call passes the keyword argument `repo`, which is
not a parameter of `ProlificProject.__init__`.  Only the
no-id-and-no-repo branch returns `None` as documented. -/
theorem getProject_raises_on_valid_id :
    getProject (PyVal.str "somegroup/somestudy") PyVal.none
      = Except.error PyErr.typeError
  ∧ (PyVal.str "somegroup/somestudy").truthy = true
  ∧ getProject PyVal.none PyVal.none = Except.ok Option.none := by
  refine ⟨by decide, by decide, by decide⟩

/-! ## C6 — login-required path of `syncProject` -/

/-- C6 counterexample: with no project anywhere and a logged-out session
(the username read succeeds and yields Python `None`), `syncProject`
returns `-1` WITHOUT invoking the external login collaborator, refuting
the claim that the workflow triggers the login collaborator in this
state. -/
theorem sync_no_login_prompt_when_logged_out :
    syncProject ⟨id, "/home/u/expt", Option.none, false, Option.none,
      Except.ok Option.none, Option.none⟩
      = (some (-1), [SyncEvent.identityFetch])
  ∧ SyncEvent.loginPrompt ∉ [SyncEvent.identityFetch] := by
  refine ⟨by rfl, by decide⟩

/-- C6 amended: with no project supplied and none from the caller, a
logged-out session (falsy username, read without an exception) makes
`syncProject` return `-1` directly, with no login prompt; the external
login collaborator is invoked only when the username read raises, and a
falsy collaborator result then also yields `-1`. -/
theorem sync_login_paths (env : SyncEnv)
    (hFolder : env.normPath env.workingDir ≠ env.normPath "~/Desktop"
             ∧ env.normPath env.workingDir ≠ env.normPath "~/My Documents")
    (hProj : env.project = Option.none)
    (hFrame : env.parentIsBuilder = false ∨ env.frameProject = Option.none) :
    (∀ u, env.usernameRead = Except.ok u → usernameTruthy u = false →
      syncProject env = (some (-1), [SyncEvent.identityFetch]))
  ∧ (∀ e, env.usernameRead = Except.error e →
      usernameTruthy env.loginResult = false →
      syncProject env
        = (some (-1), [SyncEvent.identityFetch, SyncEvent.loginPrompt])) := by
  constructor
  · intro u hu hu2
    rcases hFrame with hF | hF <;>
      simp [syncProject, hFolder.1, hFolder.2, hProj, hF, hu, hu2]
  · intro e he hl
    rcases hFrame with hF | hF <;>
      simp [syncProject, hFolder.1, hFolder.2, hProj, hF, he, hl]

/-- C6 witness: the amended statement evaluated on a concrete logged-out
environment and on a concrete environment whose username read raises. -/
theorem sync_login_paths_witness :
    syncProject ⟨id, "/home/u/expt", Option.none, false, Option.none,
      Except.ok Option.none, Option.none⟩
      = (some (-1), [SyncEvent.identityFetch])
  ∧ syncProject ⟨id, "/home/u/expt", Option.none, false, Option.none,
      Except.error PyErr.netError, Option.none⟩
      = (some (-1), [SyncEvent.identityFetch, SyncEvent.loginPrompt]) :=
  ⟨(sync_login_paths ⟨id, "/home/u/expt", Option.none, false, Option.none,
      Except.ok Option.none, Option.none⟩ ⟨by decide, by decide⟩ rfl
      (Or.inl rfl)).1 Option.none rfl rfl,
   (sync_login_paths ⟨id, "/home/u/expt", Option.none, false, Option.none,
      Except.error PyErr.netError, Option.none⟩ ⟨by decide, by decide⟩ rfl
      (Or.inl rfl)).2 PyErr.netError rfl rfl⟩

/-! ## C7 — permission gating for forking -/

/-- C7: on the fixed ordinal scale of the permission table, the sync flow
(`onSyncButton`, logged in, project present) forks exactly when the fork
gate holds, the gate holds for an absent permission value, and for each
level in \x7b10, 20, 30, 50\x7d it holds iff the level is strictly below the
developer threshold 30. -/
theorem fork_gating (v : ℤ) (hv : v ∈ ([10, 20, 30, 50] : List ℤ)) :
    forkNeeded (some v) = decide (v < 30)
  ∧ forkNeeded Option.none = true
  ∧ permissions.lookup "guest" = some 10
  ∧ permissions.lookup "reporter" = some 20
  ∧ permissions.lookup "developer" = some 30
  ∧ permissions.lookup "maintainer" = some 30
  ∧ permissions.lookup "owner" = some 50
  ∧ developerLevel = 30
  ∧ (∀ perms : Option ℤ, onSyncButton true (some perms) true
      = SyncButtonOutcome.proceeds (forkNeeded perms)) := by
  refine ⟨?_, by decide, by decide, by decide, by decide, by decide,
    by decide, by decide, ?_⟩
  · fin_cases hv <;> decide
  · intro perms
    simp [onSyncButton]

/-- C7 witness: the gating statement evaluated at guest level 10. -/
theorem fork_gating_witness :
    forkNeeded (some 10) = decide ((10 : ℤ) < 30)
  ∧ forkNeeded Option.none = true
  ∧ permissions.lookup "guest" = some 10
  ∧ permissions.lookup "reporter" = some 20
  ∧ permissions.lookup "developer" = some 30
  ∧ permissions.lookup "maintainer" = some 30
  ∧ permissions.lookup "owner" = some 50
  ∧ developerLevel = 30
  ∧ (∀ perms : Option ℤ, onSyncButton true (some perms) true
      = SyncButtonOutcome.proceeds (forkNeeded perms)) :=
  fork_gating 10 (by decide)

end Prolific

namespace Prolific

/-! ## C8 — folder rejection -/

/-- C8: when the normalized directory of the working file equals the
normalized `~/Desktop` or `~/My Documents` path, `syncProject` shows the
rejection message box and returns `-1` immediately, and its event trace
contains no network activity (no identity fetch and no login prompt). -/
theorem folder_rejection (env : SyncEnv)
    (h : env.normPath env.workingDir = env.normPath "~/Desktop"
       ∨ env.normPath env.workingDir = env.normPath "~/My Documents") :
    syncProject env = (some (-1), [SyncEvent.msgBox])
  ∧ SyncEvent.identityFetch ∉ (syncProject env).2
  ∧ SyncEvent.loginPrompt ∉ (syncProject env).2 := by
  rcases h with h | h <;>
    refine ⟨by simp [syncProject, h], ?_, ?_⟩ <;>
    simp [syncProject, h]

/-- C8 witness: the rejection evaluated on a concrete environment whose
working directory is the Desktop folder itself. -/
theorem folder_rejection_witness :
    syncProject ⟨id, "~/Desktop", some (), true, Option.none,
      Except.ok (some "alice"), Option.none⟩ = (some (-1), [SyncEvent.msgBox])
  ∧ SyncEvent.identityFetch ∉ (syncProject ⟨id, "~/Desktop", some (), true,
      Option.none, Except.ok (some "alice"), Option.none⟩).2
  ∧ SyncEvent.loginPrompt ∉ (syncProject ⟨id, "~/Desktop", some (), true,
      Option.none, Except.ok (some "alice"), Option.none⟩).2 :=
  folder_rejection ⟨id, "~/Desktop", some (), true, Option.none,
    Except.ok (some "alice"), Option.none⟩ (Or.inl rfl)

/-! ## C9 — `create_study` contract -/

/-- C9: `create_study` yields `None` on every status other than 201; for
reward `0.13` and 500 participants the request body carries `reward = 13`
in minor units and `total_available_places = 500`; and on a 201 response
whose payload has id 42 the returned record carries the derived
`url = client_url ++ "/studies/42/"`. -/
theorem create_study_contract (title iname dsc ext code : String)
    (status : Nat) (body : Obj)
    (hs : status ≠ 201) (hid : body.get "id" = some (PyVal.int 42)) :
    create_study title iname dsc ext code 500 5 (13/100)
      (HttpResponse.resp status body) = Except.ok Option.none
  ∧ (create_study_request title iname dsc ext code 500 5 (13/100)).get
      "reward" = some (PyVal.int 13)
  ∧ (create_study_request title iname dsc ext code 500 5 (13/100)).get
      "total_available_places" = some (PyVal.int 500)
  ∧ create_study title iname dsc ext code 500 5 (13/100)
      (HttpResponse.resp 201 body)
      = Except.ok (some (Obj.merge body
          [("url", PyVal.str "https://test-client.prolific.co/studies/42/")]))
  ∧ Obj.get (Obj.merge body
        [("url", PyVal.str "https://test-client.prolific.co/studies/42/")])
      "url" = some (PyVal.str "https://test-client.prolific.co/studies/42/") := by
  refine ⟨by simp [create_study, hs], ?_, ?_, ?_, ?_⟩
  · simp [create_study_request, Obj.get]
    norm_num [pyInt]
  · simp [create_study_request, Obj.get]
  · simp [create_study, hid, client_url]
    rfl
  · simp [Obj.merge, Obj.get]

/-- C9 witness: the contract evaluated at concrete strings, a 400
response for the failure half, and a payload with id 42. -/
theorem create_study_contract_witness :
    create_study "t" "i" "d" "u" "c" 500 5 (13/100)
      (HttpResponse.resp 400 [("id", PyVal.int 42)]) = Except.ok Option.none
  ∧ (create_study_request "t" "i" "d" "u" "c" 500 5 (13/100)).get
      "reward" = some (PyVal.int 13)
  ∧ (create_study_request "t" "i" "d" "u" "c" 500 5 (13/100)).get
      "total_available_places" = some (PyVal.int 500)
  ∧ create_study "t" "i" "d" "u" "c" 500 5 (13/100)
      (HttpResponse.resp 201 [("id", PyVal.int 42)])
      = Except.ok (some (Obj.merge [("id", PyVal.int 42)]
          [("url", PyVal.str "https://test-client.prolific.co/studies/42/")]))
  ∧ Obj.get (Obj.merge [("id", PyVal.int 42)]
        [("url", PyVal.str "https://test-client.prolific.co/studies/42/")])
      "url" = some (PyVal.str "https://test-client.prolific.co/studies/42/") :=
  create_study_contract "t" "i" "d" "u" "c" 400 [("id", PyVal.int 42)]
    (by decide) (by rfl)

/-! ## C10 — the connection-failure branch of `login` is unreachable -/

/-- C10: `getCurrentSession` always returns a session object without
raising (the empty-session construction and refresh touch no network),
and since a `ProlificSession` instance is always truthy, the
`ConnectionError` branch at the top of `login` is never taken: `login`
never raises that signal from its session guard for any prior global
state and any network behaviour. -/
theorem login_connection_branch_unreachable (g : Option SessionState)
    (net : HttpResponse) :
    ∃ s, getCurrentSession g net = Except.ok s
       ∧ login_begin g net = Except.ok (LoginStart.proceeds s) := by
  cases g with
  | some s => exact ⟨s, rfl, rfl⟩
  | none => exact ⟨_, rfl, rfl⟩

end Prolific
